import Mathlib

/-!
Shallow embedding of the validated-echo pipeline of
`rust-multiplatform-template-lib` (src/template.rs, src/error.rs).

Host strings (`String`/`&str`) are modelled as `List Char`; the byte
length `str::len` is the UTF-8 byte length of that character list.
Fallible construction that can panic in the source (byte-slicing a
string at a non-character-boundary index) is modelled with `Option`:
`none` stands for a panic, `some r` for a normal return of `r`.
The asynchronous functions suspend exactly once (`tokio::task::yield_now`);
a cancellation token shared with a caller is therefore observed at two
checkpoints, and is modelled by the pair of values its atomic flag shows
at those two reads.
-/

/-- UTF-8 byte size of one scalar value (`char::len_utf8` in the source). -/
def charUtf8Size (c : Char) : Nat :=
  if c.toNat < 0x80 then 1
  else if c.toNat < 0x800 then 2
  else if c.toNat < 0x10000 then 3
  else 4

/-- UTF-8 byte length of a string (`str::len` in the source). -/
def utf8Len (s : List Char) : Nat :=
  (s.map charUtf8Size).sum

/-- UTF-8 encoding of one scalar value, as its list of bytes. -/
def charUtf8Bytes (c : Char) : List Nat :=
  let n := c.toNat
  if n < 0x80 then [n]
  else if n < 0x800 then [0xC0 + n / 64, 0x80 + n % 64]
  else if n < 0x10000 then [0xE0 + n / 4096, 0x80 + (n / 64) % 64, 0x80 + n % 64]
  else [0xF0 + n / 262144, 0x80 + (n / 4096) % 64, 0x80 + (n / 64) % 64, 0x80 + n % 64]

/-- UTF-8 encoding of a string (`str::as_bytes` in the source). -/
def utf8Bytes (s : List Char) : List Nat :=
  s.flatMap charUtf8Bytes

/-- The null character, `'\0'` in the source. -/
def nullChar : Char := Char.ofNat 0

/-- Model of `str::is_char_boundary`: byte index `i` of the UTF-8 encoding
of `s` is a character boundary (`0` and the total length included). -/
def isCharBoundary : List Char → Nat → Bool
  | _, 0 => true
  | [], _ + 1 => false
  | c :: cs, i + 1 =>
    if charUtf8Size c ≤ i + 1 then isCharBoundary cs (i + 1 - charUtf8Size c) else false

/-- Model of the byte slice `&s[..n]`: the prefix of `s` spanning exactly the
first `n` UTF-8 bytes, or `none` when `n` is out of range or falls inside a
character (where the source panics). -/
def takeBytes : Nat → List Char → Option (List Char)
  | 0, _ => some []
  | _ + 1, [] => none
  | n + 1, c :: cs =>
    if charUtf8Size c ≤ n + 1 then (takeBytes (n + 1 - charUtf8Size c) cs).map (c :: ·)
    else none

/-- Error taxonomy of `error.rs` (`TemplateError`). Numeric fields keep the
source widths: `size`/`max` are `u64`. -/
inductive TemplateError where
  | InputTooLarge (size : Nat) (max : Nat) (hash : List Char)
  | InvalidInput (error_message : List Char) (input_preview : Option (List Char))
  | OperationCancelled (operation : List Char)
deriving DecidableEq, Repr

deriving instance DecidableEq for Except

/-- Result alias of `error.rs` (`TemplateResult<T>`). -/
abbrev TemplateResult (α : Type) := Except TemplateError α

/-- Maximum allowed input size, `MAX_INPUT_SIZE` in `error.rs` (1 MB). -/
def MAX_INPUT_SIZE : Nat := 1000000

/-- State of `std`'s SipHash hasher: four 64-bit lanes, kept as naturals
reduced modulo `2 ^ 64`. -/
structure SipState where
  v0 : Nat
  v1 : Nat
  v2 : Nat
  v3 : Nat

/-- 64-bit left rotation. -/
def rotl64 (x n : Nat) : Nat :=
  ((x <<< n) % 2 ^ 64) ||| (x >>> (64 - n))

/-- 64-bit addition. -/
def wadd (a b : Nat) : Nat := (a + b) % 2 ^ 64

/-- One SipHash round. -/
def sipRound (s : SipState) : SipState :=
  let v0 := wadd s.v0 s.v1
  let v1 := rotl64 s.v1 13
  let v1 := v1 ^^^ v0
  let v0 := rotl64 v0 32
  let v2 := wadd s.v2 s.v3
  let v3 := rotl64 s.v3 16
  let v3 := v3 ^^^ v2
  let v2 := wadd v2 v1
  let v1 := rotl64 v1 17
  let v1 := v1 ^^^ v2
  let v2 := rotl64 v2 32
  let v0 := wadd v0 v3
  let v3 := rotl64 v3 21
  let v3 := v3 ^^^ v0
  ⟨v0, v1, v2, v3⟩

/-- Absorb one 8-byte message word (SipHash-1-3: one round per word). -/
def sipCompress (s : SipState) (m : Nat) : SipState :=
  let s := { s with v3 := s.v3 ^^^ m }
  let s := sipRound s
  { s with v0 := s.v0 ^^^ m }

/-- Assemble at most eight bytes into a little-endian word. -/
def le64 (bs : List Nat) : Nat :=
  bs.foldr (fun b acc => b % 256 + 256 * acc) 0

/-- Finalisation: absorb the last (short) word tagged with the message
length, flip `v2`, run three rounds, and fold the lanes. -/
def sipFinish (s : SipState) (tailBytes : List Nat) (total : Nat) : Nat :=
  let b := ((total % 256) <<< 56) + le64 tailBytes
  let s := sipCompress s b
  let s := { s with v2 := s.v2 ^^^ 0xff }
  let s := sipRound (sipRound (sipRound s))
  s.v0 ^^^ s.v1 ^^^ s.v2 ^^^ s.v3

/-- Consume the message by whole 8-byte words, then finalise. -/
def sipGo (s : SipState) (total : Nat) : List Nat → Nat
  | b0 :: b1 :: b2 :: b3 :: b4 :: b5 :: b6 :: b7 :: rest =>
    sipGo (sipCompress s (le64 [b0, b1, b2, b3, b4, b5, b6, b7])) total rest
  | bs => sipFinish s bs total

/-- SipHash-1-3 with the all-zero key, as used by
`std::collections::hash_map::DefaultHasher`. -/
def sipHash13 (msg : List Nat) : Nat :=
  let s : SipState :=
    ⟨0x736f6d6570736575, 0x646f72616e646f6d, 0x6c7967656e657261, 0x7465646279746573⟩
  sipGo s msg.length msg

/-- Model of `calculate_hash` (`error.rs`): `DefaultHasher` fed with
`Hash for str`, which writes the UTF-8 bytes followed by a `0xff` marker. -/
def calculate_hash (input : List Char) : Nat :=
  sipHash13 (utf8Bytes input ++ [0xff])

/-- Digits of the lowercase-hex rendering of a natural, with explicit fuel
so the definition reduces structurally (`fuel ≥ n` suffices). -/
def toHexCore : Nat → Nat → List Char
  | 0, _ => []
  | fuel + 1, n =>
    if n = 0 then []
    else
      toHexCore fuel (n / 16) ++
        [("0123456789abcdef".toList).getD (n % 16) '0']

/-- Model of `format!` with the `:x` (lowercase hex) spec on a `u64`. -/
def toHex (n : Nat) : List Char :=
  if n = 0 then ['0'] else toHexCore n n

/-- Model of `TemplateError::input_too_large` (`error.rs`): `usize` values
are cast to `u64`. -/
def input_too_large (size max : Nat) (input : List Char) : TemplateError :=
  .InputTooLarge (size % 2 ^ 64) (max % 2 ^ 64) (toHex (calculate_hash input % 2 ^ 64))

/-- Model of `TemplateError::invalid_input` (`error.rs`). When the input is
longer than 50 bytes the source slices `&s[..50]`, which panics (`none`)
when byte 50 is not a character boundary, and appends a literal `...`. -/
def invalid_input (msg : List Char) (input : Option (List Char)) :
    Option TemplateError :=
  match input with
  | none => some (.InvalidInput msg none)
  | some s =>
    if utf8Len s > 50 then
      match takeBytes 50 s with
      | some p => some (.InvalidInput msg (some (p ++ ['.', '.', '.'])))
      | none => none
    else some (.InvalidInput msg (some s))

/-- Model of `TemplateError::operation_cancelled` (`error.rs`). -/
def operation_cancelled (op : List Char) : TemplateError :=
  .OperationCancelled op

/-- Message of the null-byte rejection in `validate_input`. -/
def nullMsg : List Char := "Input contains null bytes".toList

/-- Message of the boundary-check rejection in `validate_input`. -/
def utf8Msg : List Char := "Invalid UTF-8 sequence".toList

/-- Model of `validate_input` (`template.rs`): reject input containing a
null byte, then assert that the total byte length is a character boundary.
`none` models a panic inside error construction. -/
def validate_input (input : List Char) : Option (TemplateResult Unit) :=
  if input.contains nullChar then
    (invalid_input nullMsg (some input)).map Except.error
  else if !input.isEmpty && !isCharBoundary input (utf8Len input) then
    (invalid_input utf8Msg (some input)).map Except.error
  else
    some (Except.ok ())

/-- Model of `EchoResult` (`template.rs`): `length` is `u32`,
`timestamp` is `u64`. -/
structure EchoResult where
  text : List Char
  length : Nat
  timestamp : Nat
  hash : Option (List Char)
deriving DecidableEq, Repr

/-- Model of `EchoResult::new`: `length` is the byte length cast `as u32`;
the completion time is passed in as `now` (seconds since epoch). -/
def EchoResult.new (text : List Char) (now : Nat) : EchoResult :=
  { text := text
    length := utf8Len text % 2 ^ 32
    timestamp := now % 2 ^ 64
    hash := none }

/-- Model of `validate_and_echo_internal` (`template.rs`): size check,
optional content validation, empty-input short-circuit, then result
construction. -/
def validate_and_echo_internal (input : List Char) (max_size : Nat)
    (enable_validation : Bool) (now : Nat) :
    Option (TemplateResult (Option EchoResult)) :=
  let input_size := utf8Len input
  if input_size > max_size then
    some (Except.error (input_too_large input_size max_size input))
  else
    match (if enable_validation then validate_input input else some (Except.ok ())) with
    | none => none
    | some (Except.error e) => some (Except.error e)
    | some (Except.ok ()) =>
      if input.isEmpty then some (Except.ok none)
      else some (Except.ok (some (EchoResult.new input now)))

/-- Observed states of a shared `CancellationToken` at the two cancellation
checkpoints of one async call (before and after the single suspension
point); the flag may be set concurrently during the suspension. -/
structure TokenTrace where
  atCheck1 : Bool
  atCheck2 : Bool
deriving DecidableEq, Repr

/-- Whether a checkpoint read of an optional token observes cancellation. -/
def observes (token : Option TokenTrace) (read : TokenTrace → Bool) : Bool :=
  match token with
  | some t => read t
  | none => false

/-- Model of `echo` (`template.rs`): checkpoint, suspension, checkpoint,
then the internal pipeline with the library defaults (`MAX_INPUT_SIZE`,
validation enabled). -/
def echo (input : List Char) (token : Option TokenTrace) (now : Nat) :
    Option (TemplateResult (Option EchoResult)) :=
  if observes token (·.atCheck1) then
    some (Except.error (operation_cancelled "echo".toList))
  else if observes token (·.atCheck2) then
    some (Except.error (operation_cancelled "echo".toList))
  else
    validate_and_echo_internal input MAX_INPUT_SIZE true now

/-- Model of `TemplateConfig` (`template.rs`): `max_input_size` is `u64`. -/
structure TemplateConfig where
  max_input_size : Nat
  enable_validation : Bool
deriving DecidableEq, Repr

/-- Model of `TemplateConfig::new`. -/
def TemplateConfig.new (max_input_size : Nat) (enable_validation : Bool) :
    TemplateConfig :=
  { max_input_size := max_input_size % 2 ^ 64, enable_validation := enable_validation }

/-- Model of `TemplateConfig::validate_and_echo` (`template.rs`): the same
two-checkpoint shape as `echo`, but the cancellation errors name the
operation `validate_and_echo` and the internal pipeline runs with the
configuration's own size limit and validation flag. -/
def TemplateConfig.validate_and_echo (cfg : TemplateConfig) (input : List Char)
    (token : Option TokenTrace) (now : Nat) :
    Option (TemplateResult (Option EchoResult)) :=
  if observes token (·.atCheck1) then
    some (Except.error (operation_cancelled "validate_and_echo".toList))
  else if observes token (·.atCheck2) then
    some (Except.error (operation_cancelled "validate_and_echo".toList))
  else
    validate_and_echo_internal input cfg.max_input_size cfg.enable_validation now

/-- The state machine of `echo` with the library-wide defaults replaced by
explicit parameters; C5 compares the configuration-driven variant against
this (spec side of the refinement). -/
def echoWithParams (input : List Char) (token : Option TokenTrace)
    (max_size : Nat) (enable_validation : Bool) (now : Nat) :
    Option (TemplateResult (Option EchoResult)) :=
  if observes token (·.atCheck1) then
    some (Except.error (operation_cancelled "echo".toList))
  else if observes token (·.atCheck2) then
    some (Except.error (operation_cancelled "echo".toList))
  else
    validate_and_echo_internal input max_size enable_validation now

/-- Rename the operation carried by a cancellation error, leaving every
other outcome unchanged. -/
def renameCancelled (name : List Char) :
    Option (TemplateResult (Option EchoResult)) →
      Option (TemplateResult (Option EchoResult))
  | some (Except.error (TemplateError.OperationCancelled _)) =>
    some (Except.error (TemplateError.OperationCancelled name))
  | r => r

/-- State of a `CancellationToken`'s shared atomic flag (`template.rs`). -/
def CancellationToken.new : Bool := false

/-- Model of `CancellationToken::cancel`: store `true`. -/
def CancellationToken.cancel (_ : Bool) : Bool := true

/-- Model of `CancellationToken::is_cancelled`: the observed value and the
flag state after the read (a load does not write). -/
def CancellationToken.is_cancelled (s : Bool) : Bool × Bool := (s, s)

/-- Model of `random` (`template.rs`): the rand crate's `StandardUniform`
sampler for `f64` maps one RNG output word `x` to
`(x >> 11) * 2 ^ (-53 : Int)`; a 53-bit significand is exact in `f64`, so
the value is represented exactly as a rational. -/
def random (rngWord : Nat) : ℚ :=
  ((rngWord % 2 ^ 64) >>> 11 : Nat) / (2 ^ 53 : ℚ)

/-- Whether a pipeline outcome is the size-rejection error. -/
def isTooLarge : Option (TemplateResult (Option EchoResult)) → Bool
  | some (Except.error (TemplateError.InputTooLarge _ _ _)) => true
  | _ => false

theorem charUtf8Size_pos (c : Char) : 1 ≤ charUtf8Size c := by
  unfold charUtf8Size
  repeat' split
  all_goals omega

/-- The total UTF-8 byte length of a string is always a character boundary,
so the defensive boundary assertion in `validate_input` never fires. -/
theorem isCharBoundary_utf8Len (s : List Char) :
    isCharBoundary s (utf8Len s) = true := by
  induction s with
  | nil => rfl
  | cons c cs ih =>
    have hc := charUtf8Size_pos c
    have hrepr : utf8Len (c :: cs) = (utf8Len (c :: cs) - 1) + 1 := by
      simp [utf8Len]
      omega
    rw [hrepr]
    simp only [isCharBoundary]
    have hle : charUtf8Size c ≤ (utf8Len (c :: cs) - 1) + 1 := by
      simp [utf8Len] at hrepr ⊢
      omega
    rw [if_pos hle]
    have heq : (utf8Len (c :: cs) - 1) + 1 - charUtf8Size c = utf8Len cs := by
      simp [utf8Len] at hrepr ⊢
      omega
    rw [heq]
    exact ih

theorem invalid_input_cases (msg s : List Char) :
    invalid_input msg (some s) = none ∨
      ∃ p, invalid_input msg (some s) = some (.InvalidInput msg p) := by
  simp only [invalid_input]
  split
  · rcases h : takeBytes 50 s with _ | p
    · left; simp [h]
    · right
      refine ⟨some (p ++ ['.', '.', '.']), ?_⟩
      simp [h]
  · right; exact ⟨_, rfl⟩

/-- Without a null byte, content validation succeeds. -/
theorem validate_input_eq_ok (s : List Char) (h : s.contains nullChar = false) :
    validate_input s = some (Except.ok ()) := by
  unfold validate_input
  rw [h, isCharBoundary_utf8Len s]
  simp

/-- Content validation either succeeds, panics, or rejects with the
null-byte message; the `Invalid UTF-8 sequence` branch is unreachable. -/
theorem validate_input_cases (s : List Char) :
    validate_input s = some (Except.ok ()) ∨ validate_input s = none ∨
      ∃ p, validate_input s = some (Except.error (.InvalidInput nullMsg p)) := by
  by_cases h : s.contains nullChar
  · have : validate_input s = (invalid_input nullMsg (some s)).map Except.error := by
      unfold validate_input
      rw [h]
      simp
    rcases invalid_input_cases nullMsg s with hc | ⟨p, hp⟩
    · right; left; rw [this, hc]; rfl
    · right; right; exact ⟨p, by rw [this, hp]; rfl⟩
  · left
    exact validate_input_eq_ok s (by simpa using h)

theorem toHexCore_ne_nil (fuel n : Nat) (hf : 1 ≤ fuel) (hn : n ≠ 0) :
    toHexCore fuel n ≠ [] := by
  obtain ⟨f, rfl⟩ : ∃ f, fuel = f + 1 := ⟨fuel - 1, by omega⟩
  simp only [toHexCore]
  rw [if_neg hn]
  simp

/-- The rendered diagnostic hash string is never empty. -/
theorem toHex_ne_nil (n : Nat) : toHex n ≠ [] := by
  unfold toHex
  split
  · simp
  · exact toHexCore_ne_nil n n (by omega) (by assumption)

/-- Neither checkpoint read of the (optional) token observes cancellation. -/
def noCancellation (token : Option TokenTrace) : Prop :=
  observes token (·.atCheck1) = false ∧ observes token (·.atCheck2) = false

/-- The validation gate of the internal pipeline (content validation when
enabled, a trivial success otherwise) succeeds, panics, or rejects with
the null-byte message. -/
theorem validation_gate_cases (input : List Char) (en : Bool) :
    (if en = true then validate_input input else some (Except.ok ())) =
        some (Except.ok ()) ∨
      (if en = true then validate_input input else some (Except.ok ())) = none ∨
      ∃ p, (if en = true then validate_input input else some (Except.ok ())) =
        some (Except.error (TemplateError.InvalidInput nullMsg p)) := by
  cases en
  · left; rfl
  · simpa using validate_input_cases input

/-- The internal pipeline never produces a cancellation error, so renaming
cancellation errors leaves its outcome unchanged. -/
theorem renameCancelled_internal (name input : List Char) (max_size : Nat)
    (en : Bool) (now : Nat) :
    renameCancelled name (validate_and_echo_internal input max_size en now) =
      validate_and_echo_internal input max_size en now := by
  simp only [validate_and_echo_internal]
  by_cases hsz : utf8Len input > max_size
  · rw [if_pos hsz]
    rfl
  · rw [if_neg hsz]
    rcases validation_gate_cases input en with h | h | ⟨p, h⟩ <;> rw [h]
    · by_cases he : input.isEmpty <;> simp [he, renameCancelled]
    · rfl
    · rfl

/-- Within the size limit, the outcome is never the size-rejection error. -/
theorem isTooLarge_eq_false (input : List Char) (max_size : Nat) (en : Bool)
    (now : Nat) (h : utf8Len input ≤ max_size) :
    isTooLarge (validate_and_echo_internal input max_size en now) = false := by
  simp only [validate_and_echo_internal]
  rw [if_neg (by omega)]
  rcases validation_gate_cases input en with hv | hv | ⟨p, hv⟩ <;> rw [hv]
  · by_cases he : input.isEmpty <;> simp [he, isTooLarge]
  · rfl
  · rfl

/-- C1: every input within the 1 MB default size limit and free of null
bytes, run with no cancellation signalled, succeeds; the result is `None`
exactly when the input is empty, and otherwise the outcome echoes the
input verbatim with `length` equal to its UTF-8 byte length. -/
theorem C1_roundtrip_identity (input : List Char) (token : Option TokenTrace)
    (now : Nat)
    (hsize : utf8Len input ≤ MAX_INPUT_SIZE)
    (hnull : input.contains nullChar = false)
    (htok : noCancellation token) :
    ∃ res, echo input token now = some (Except.ok res) ∧
      (res = none ↔ input = []) ∧
      ∀ r, res = some r → r.text = input ∧ r.length = utf8Len input := by
  have hint : MAX_INPUT_SIZE < 2 ^ 32 := by decide
  unfold echo
  rw [htok.1, htok.2]
  simp only [Bool.false_eq_true, if_false]
  unfold validate_and_echo_internal
  rw [if_neg (by unfold MAX_INPUT_SIZE at hsize ⊢; omega),
    validate_input_eq_ok input hnull]
  by_cases hempty : input.isEmpty
  · refine ⟨none, ?_, ?_, ?_⟩
    · simp [hempty]
    · simpa using List.isEmpty_iff.mp hempty
    · intro r hr
      exact absurd hr (by simp)
  · refine ⟨some (EchoResult.new input now), ?_, ?_, ?_⟩
    · simp [hempty]
    · constructor
      · intro hr
        exact absurd hr (by simp)
      · intro hr
        exact absurd (List.isEmpty_iff.mpr hr) hempty
    · intro r hr
      obtain rfl : EchoResult.new input now = r := by simpa using hr
      refine ⟨rfl, ?_⟩
      show utf8Len input % 2 ^ 32 = utf8Len input
      exact Nat.mod_eq_of_lt (by omega)

theorem C1_roundtrip_identity_witness :
    utf8Len "ok".toList ≤ MAX_INPUT_SIZE ∧
      "ok".toList.contains nullChar = false ∧ noCancellation none ∧
      ∃ res, echo "ok".toList none 44 = some (Except.ok res) ∧
        (res = none ↔ "ok".toList = []) ∧
        ∀ r, res = some r → r.text = "ok".toList ∧ r.length = utf8Len "ok".toList :=
  ⟨by decide, by decide, ⟨rfl, rfl⟩,
    C1_roundtrip_identity "ok".toList none 44 (by decide) (by decide) ⟨rfl, rfl⟩⟩

/-- C3: a cancellation signal observed as set at the first checkpoint makes
`echo` fail with `OperationCancelled "echo"` for every input, whatever its
size or content. -/
theorem C3_cancellation_priority (input : List Char) (t : TokenTrace)
    (now : Nat) (h : t.atCheck1 = true) :
    echo input (some t) now =
      some (Except.error (TemplateError.OperationCancelled "echo".toList)) := by
  unfold echo
  have : observes (some t) (·.atCheck1) = true := h
  rw [this]
  rfl

theorem C3_cancellation_priority_witness :
    (⟨true, true⟩ : TokenTrace).atCheck1 = true ∧
      echo (List.replicate 1000001 'a') (some ⟨true, true⟩) 0 =
        some (Except.error (TemplateError.OperationCancelled "echo".toList)) :=
  ⟨rfl, C3_cancellation_priority (List.replicate 1000001 'a') ⟨true, true⟩ 0 rfl⟩

/-- C6: the empty input, with no cancellation signalled (its size, zero,
never exceeds any limit), always succeeds with no outcome — through the
internal pipeline, the default `echo` entry point, and any configuration. -/
theorem C6_empty_input (max_size : Nat) (en : Bool) (now : Nat)
    (token : Option TokenTrace) (htok : noCancellation token) :
    validate_and_echo_internal [] max_size en now = some (Except.ok none) ∧
    echo [] token now = some (Except.ok none) ∧
    TemplateConfig.validate_and_echo ⟨max_size, en⟩ [] token now =
      some (Except.ok none) := by
  have hint : ∀ m e, validate_and_echo_internal [] m e now = some (Except.ok none) := by
    intro m e
    unfold validate_and_echo_internal
    rw [if_neg (by simp [utf8Len])]
    cases e with
    | false => rfl
    | true => rw [validate_input_eq_ok [] (by decide)]; rfl
  refine ⟨hint max_size en, ?_, ?_⟩
  · unfold echo
    rw [htok.1, htok.2]
    simpa using hint MAX_INPUT_SIZE true
  · unfold TemplateConfig.validate_and_echo
    rw [htok.1, htok.2]
    simpa using hint max_size en

theorem C6_empty_input_witness :
    noCancellation none ∧
      (validate_and_echo_internal [] 5 true 9 = some (Except.ok none) ∧
        echo [] none 9 = some (Except.ok none) ∧
        TemplateConfig.validate_and_echo ⟨5, true⟩ [] none 9 =
          some (Except.ok none)) :=
  ⟨⟨rfl, rfl⟩, C6_empty_input 5 true 9 none ⟨rfl, rfl⟩⟩

/-- C7: `cancel` is idempotent (a second `cancel` leaves the flag state
unchanged), after `cancel` the flag reads as set, an already-set flag is
never reset by `cancel`, and `is_cancelled` never mutates the flag. -/
theorem C7_cancel_idempotent_monotonic :
    (∀ s : Bool, CancellationToken.cancel (CancellationToken.cancel s) =
      CancellationToken.cancel s) ∧
    (∀ s : Bool, (CancellationToken.is_cancelled (CancellationToken.cancel s)).1 = true) ∧
    CancellationToken.cancel true = true ∧
    (∀ s : Bool, (CancellationToken.is_cancelled s).2 = s) := by
  refine ⟨fun s => rfl, fun s => rfl, rfl, fun s => rfl⟩

/-- C2: an input whose byte length strictly exceeds the size limit is
rejected with `InputTooLarge` carrying that byte length, the limit, and a
non-empty hash string computed from the input alone (hence the same string
for the same input); an input whose byte length equals the limit exactly
is never rejected for size. -/
theorem C2_too_large (input input₂ : List Char) (max_size : Nat)
    (en en₂ : Bool) (now now₂ : Nat)
    (h : utf8Len input > max_size) (h₂ : utf8Len input₂ = max_size) :
    validate_and_echo_internal input max_size en now =
      some (Except.error (TemplateError.InputTooLarge
        (utf8Len input % 2 ^ 64) (max_size % 2 ^ 64)
        (toHex (calculate_hash input % 2 ^ 64)))) ∧
    toHex (calculate_hash input % 2 ^ 64) ≠ [] ∧
    isTooLarge (validate_and_echo_internal input₂ max_size en₂ now₂) = false := by
  refine ⟨?_, toHex_ne_nil _, isTooLarge_eq_false input₂ max_size en₂ now₂ (by omega)⟩
  simp only [validate_and_echo_internal]
  rw [if_pos h]
  rfl

theorem C2_too_large_witness :
    utf8Len "abc".toList > 2 ∧ utf8Len "xy".toList = 2 ∧
      (validate_and_echo_internal "abc".toList 2 true 0 =
        some (Except.error (TemplateError.InputTooLarge
          (utf8Len "abc".toList % 2 ^ 64) (2 % 2 ^ 64)
          (toHex (calculate_hash "abc".toList % 2 ^ 64)))) ∧
      toHex (calculate_hash "abc".toList % 2 ^ 64) ≠ [] ∧
      isTooLarge (validate_and_echo_internal "xy".toList 2 false 1) = false) :=
  ⟨by decide, by decide, C2_too_large "abc".toList "xy".toList 2 true false 0 1
    (by decide) (by decide)⟩

/-- C5 counterexample: with a cancelled token, the configuration-driven
variant reports the operation name `validate_and_echo`, while the default
pipeline's state machine (run with the same configuration values) reports
`echo` — so the two results are not equal as the claim states. -/
theorem C5_counterexample :
    TemplateConfig.validate_and_echo (TemplateConfig.new 1000000 true)
        "x".toList (some ⟨true, true⟩) 0 ≠
      echoWithParams "x".toList (some ⟨true, true⟩)
        (TemplateConfig.new 1000000 true).max_input_size
        (TemplateConfig.new 1000000 true).enable_validation 0 := by
  decide

/-- C5 (amended): `echo` is exactly its state machine at the library
defaults, and the configuration-driven variant equals that same state
machine run with the configuration's own size limit and validation flag —
except that its cancellation errors carry the operation name
`validate_and_echo` instead of `echo`. -/
theorem C5_config_machine (cfg : TemplateConfig) (input : List Char)
    (token : Option TokenTrace) (now : Nat) :
    echo input token now = echoWithParams input token MAX_INPUT_SIZE true now ∧
    cfg.validate_and_echo input token now =
      renameCancelled "validate_and_echo".toList
        (echoWithParams input token cfg.max_input_size cfg.enable_validation now) := by
  refine ⟨rfl, ?_⟩
  unfold TemplateConfig.validate_and_echo echoWithParams
  by_cases h1 : observes token (·.atCheck1)
  · rw [h1]
    rfl
  · rw [Bool.not_eq_true] at h1
    rw [h1]
    by_cases h2 : observes token (·.atCheck2)
    · rw [h2]
      rfl
    · rw [Bool.not_eq_true] at h2
      rw [h2]
      simpa using
        (renameCancelled_internal "validate_and_echo".toList input
          cfg.max_input_size cfg.enable_validation now).symm

/-- C8: content validation succeeds exactly when the input is free of null
bytes; the total byte length is always a character boundary, so the
defensive `Invalid UTF-8 sequence` branch is unreachable and every
rejection carries the null-byte message. -/
theorem C8_content_check (input : List Char) :
    (validate_input input = some (Except.ok ()) ↔
      input.contains nullChar = false) ∧
    isCharBoundary input (utf8Len input) = true ∧
    (validate_input input = some (Except.ok ()) ∨ validate_input input = none ∨
      ∃ p, validate_input input =
        some (Except.error (TemplateError.InvalidInput nullMsg p))) := by
  refine ⟨⟨?_, validate_input_eq_ok input⟩, isCharBoundary_utf8Len input,
    validate_input_cases input⟩
  intro hok
  by_contra hc
  rw [Bool.not_eq_false] at hc
  have : validate_input input = (invalid_input nullMsg (some input)).map Except.error := by
    unfold validate_input
    rw [hc]
    simp
  rcases invalid_input_cases nullMsg input with h | ⟨p, h⟩ <;>
    rw [this, h] at hok <;> simp at hok

/-- C4: the preview attached to the null-byte rejection is built from the
first 50 UTF-8 BYTES of the input, not its first 50 characters, and the
byte slice panics when byte 50 falls inside a character. Witnessed here on
a 51-character input starting with a null byte and `'a'` followed by 49
two-byte characters: the preview keeps only 26 characters (50 bytes), not
the first 50 characters; and on a null byte followed by 25 two-byte
characters (51 bytes), error construction — and with it the whole
pipeline — panics instead of returning `MalformedContent`. -/
theorem C4_preview_bug :
    validate_input (nullChar :: 'a' :: List.replicate 49 'é') =
      some (Except.error (TemplateError.InvalidInput nullMsg
        (some ((nullChar :: 'a' :: List.replicate 24 'é') ++ ['.', '.', '.'])))) ∧
    (nullChar :: 'a' :: List.replicate 24 'é') ++ ['.', '.', '.'] ≠
      (nullChar :: 'a' :: List.replicate 49 'é').take 50 ++ ['.', '.', '.'] ∧
    validate_input (nullChar :: List.replicate 25 'é') = none ∧
    validate_and_echo_internal (nullChar :: List.replicate 25 'é')
      MAX_INPUT_SIZE true 0 = none := by
  decide

/-- C9: the `random` operation is a total function of one RNG output word,
taking no input, no configuration, and no cancellation token, and its value
always lies in the half-open interval from zero (inclusive) to one
(exclusive). -/
theorem C9_random_range (rngWord : Nat) :
    0 ≤ random rngWord ∧ random rngWord < 1 := by
  constructor
  · unfold random
    positivity
  · unfold random
    rw [div_lt_one (by positivity)]
    have h : ((rngWord % 2 ^ 64) >>> 11 : Nat) < 2 ^ 53 := by
      have h1 : rngWord % 2 ^ 64 < 2 ^ 64 := Nat.mod_lt _ (by positivity)
      rw [Nat.shiftRight_eq_div_pow]
      omega
    exact_mod_cast h

/-- C10: every outcome produced by a successful non-empty run of the
configuration-driven variant carries `length` equal to the input's UTF-8
byte length reduced modulo `2 ^ 32`; the field equals the true byte length
exactly when that length fits in 32 bits, and differs from it otherwise. -/
theorem C10_length_mod_2_32 (input : List Char) (cfg : TemplateConfig)
    (token : Option TokenTrace) (now : Nat) (r : EchoResult)
    (h : cfg.validate_and_echo input token now = some (Except.ok (some r))) :
    r.length = utf8Len input % 2 ^ 32 ∧
      (r.length = utf8Len input ↔ utf8Len input < 2 ^ 32) := by
  have hr : r = EchoResult.new input now := by
    unfold TemplateConfig.validate_and_echo at h
    by_cases h1 : observes token (·.atCheck1)
    · rw [h1] at h
      simp at h
    · rw [Bool.not_eq_true] at h1
      rw [h1] at h
      simp only [Bool.false_eq_true, if_false] at h
      by_cases h2 : observes token (·.atCheck2)
      · rw [h2] at h
        simp at h
      · rw [Bool.not_eq_true] at h2
        rw [h2] at h
        simp only [Bool.false_eq_true, if_false] at h
        simp only [validate_and_echo_internal] at h
        by_cases hsz : utf8Len input > cfg.max_input_size
        · rw [if_pos hsz] at h
          simp at h
        · rw [if_neg hsz] at h
          rcases validation_gate_cases input cfg.enable_validation with
            hv | hv | ⟨p, hv⟩ <;> rw [hv] at h
          · by_cases he : input.isEmpty
            · rw [if_pos he] at h
              simp at h
            · rw [if_neg he] at h
              simpa using h.symm
          · simp at h
          · simp at h
  have hmod : utf8Len input % 2 ^ 32 < 2 ^ 32 :=
    Nat.mod_lt _ (by norm_num)
  refine ⟨by rw [hr]; rfl, ?_⟩
  rw [hr]
  show utf8Len input % 2 ^ 32 = utf8Len input ↔ utf8Len input < 2 ^ 32
  exact ⟨fun he => by omega, Nat.mod_eq_of_lt⟩

theorem C10_length_mod_2_32_witness :
    TemplateConfig.validate_and_echo ⟨1000000, true⟩ "ab".toList none 3 =
        some (Except.ok (some ⟨"ab".toList, 2, 3, none⟩)) ∧
      ((⟨"ab".toList, 2, 3, none⟩ : EchoResult).length =
          utf8Len "ab".toList % 2 ^ 32 ∧
        ((⟨"ab".toList, 2, 3, none⟩ : EchoResult).length = utf8Len "ab".toList ↔
          utf8Len "ab".toList < 2 ^ 32)) :=
  ⟨by decide,
    C10_length_mod_2_32 "ab".toList ⟨1000000, true⟩ none 3 _ (by decide)⟩

example : utf8Len "abc".toList = 3 := by decide
example : utf8Len ['é'] = 2 := by decide
example : isCharBoundary ['é', 'a'] 2 = true := by decide
example : isCharBoundary ['é', 'a'] 1 = false := by decide
example : takeBytes 2 ['é', 'a'] = some ['é'] := by decide
example : takeBytes 1 ['é', 'a'] = none := by decide
example : toHex 255 = ['f', 'f'] := by decide
example :
    echo "ab".toList none 7 =
      some (Except.ok (some ⟨"ab".toList, 2, 7, none⟩)) := by decide
example : echo [] none 7 = some (Except.ok none) := by decide
